import Mathlib

/-!
Verification of the Threshold Alert Engine of the Meteorological-Data-Service
repository, embedded shallowly from `src/services/alert_service.py`,
`src/models.py` and `src/routers/admin.py`.

Modelling conventions:
- Python floats are modelled as rationals (`ℚ`); every entry of the source's
  `DEFAULT_THRESHOLDS` table is integral, so the table embeds exactly.
- `datetime` values are modelled as integers counting seconds.
  `datetime.now()` becomes an explicit `now : Int` argument of each operation
  and `timedelta(hours=24)` is the constant `86400`.
- The SQLAlchemy session is modelled by an explicit store (`DB`) holding the
  alerts table and the primary-key sequence; `db.add` followed by `commit`
  appends a row with a fresh primary key, `rollback` discards pending rows.
- String-keyed dictionaries (`'temperatura_alta'`, `'crítico'`, ...) are
  modelled by closed inductive types; the accented source key `'crítico'` is
  spelled `critico` because Lean identifiers cannot carry the accent.
-/

namespace MeteoAlert

/-- Risk tiers of the catalog, ordered `bajo < medio < alto < crítico`
(source key strings `'bajo'`, `'medio'`, `'alto'`, `'crítico'`). -/
inductive RiskLevel where
  | bajo
  | medio
  | alto
  | critico
  deriving DecidableEq, Repr

/-- Position of a tier in the severity order `bajo < medio < alto < crítico`. -/
def RiskLevel.ord : RiskLevel → Nat
  | .bajo => 0
  | .medio => 1
  | .alto => 2
  | .critico => 3

/-- Alert types registered in `AlertService.DEFAULT_THRESHOLDS`. -/
inductive AlertType where
  | temperatura_alta
  | temperatura_baja
  | lluvia_intensa
  | viento_fuerte
  | humedad_alta
  deriving DecidableEq, Repr

/-- Severity labels attached to alerts by the check functions. -/
inductive Severity where
  | info
  | warning
  | watch
  | advisory
  deriving DecidableEq, Repr

/-- `AlertService.DEFAULT_THRESHOLDS` (alert_service.py lines 16-47).
`self.thresholds` is a copy of this table and is never mutated, so the model
reads the constant directly. -/
def DEFAULT_THRESHOLDS : AlertType → RiskLevel → ℚ
  | .temperatura_alta, .bajo => 30
  | .temperatura_alta, .medio => 35
  | .temperatura_alta, .alto => 40
  | .temperatura_alta, .critico => 45
  | .temperatura_baja, .bajo => 5
  | .temperatura_baja, .medio => 0
  | .temperatura_baja, .alto => -5
  | .temperatura_baja, .critico => -10
  | .lluvia_intensa, .bajo => 10
  | .lluvia_intensa, .medio => 25
  | .lluvia_intensa, .alto => 50
  | .lluvia_intensa, .critico => 100
  | .viento_fuerte, .bajo => 20
  | .viento_fuerte, .medio => 35
  | .viento_fuerte, .alto => 50
  | .viento_fuerte, .critico => 75
  | .humedad_alta, .bajo => 80
  | .humedad_alta, .medio => 90
  | .humedad_alta, .alto => 95
  | .humedad_alta, .critico => 98

/-- `models.Alert` (models.py lines 112-148), restricted to the columns the
engine reads or writes. `id` is `none` for a candidate that has not been
inserted yet; the store assigns the primary key. `created_at` carries the
`server_default func.now()` insertion stamp. -/
structure Alert where
  id : Option Nat
  weather_data_id : Option Nat
  location_id : Nat
  alert_type : AlertType
  risk_level : RiskLevel
  severity : Severity
  threshold_value : ℚ
  current_value : ℚ
  alert_start : Int
  alert_end : Option Int
  is_active : Bool
  description : String
  recommendations : String
  created_at : Int
  deriving DecidableEq, Repr

/-- `models.WeatherData` (models.py lines 33-79), restricted to the columns
read by `AlertService`. `time` is the non-nullable observation timestamp;
the four metric columns are nullable floats. -/
structure WeatherData where
  id : Nat
  location_id : Nat
  time : Int
  temperature_2m : Option ℚ
  rain : Option ℚ
  windspeed_10m : Option ℚ
  relativehumidity_2m : Option ℚ
  deriving DecidableEq, Repr

/-- The persisted store: the alerts table and the primary-key sequence. -/
structure DB where
  alerts : List Alert
  nextId : Nat
  deriving DecidableEq, Repr

/-- `db.add(alert)` followed by `db.commit()`: insert the row, assigning the
primary key and stamping `created_at` with the insertion time. -/
def DB.add (db : DB) (now : Int) (a : Alert) : DB :=
  { alerts := db.alerts ++ [{ a with id := some db.nextId, created_at := now }],
    nextId := db.nextId + 1 }

/-- `AlertService._get_temperature_recommendations` (lines 261-271). -/
def _get_temperature_recommendations (temp : ℚ) (type_temp : String) : String :=
  if type_temp = "alta" then
    if temp ≥ 40 then "Evite la exposición directa al sol. Manténgase hidratado."
    else if temp ≥ 35 then "Limite actividades al aire libre. Use ropa ligera."
    else "Use protector solar. Manténgase hidratado."
  else "Use ropa apropiada para el frío."

/-- `AlertService._check_temperature_high` (lines 111-139). The Python body
reads `weather_data.temperature_2m`, which the caller has already checked is
not None; that value is the explicit argument `temp`. `alert_start` is
`datetime.now()`; the constructor leaves `alert_end` unset and `is_active`
takes its column default `True`. -/
def _check_temperature_high (now : Int) (weather_data : WeatherData) (temp : ℚ) :
    Option Alert :=
  let thresholds := DEFAULT_THRESHOLDS .temperatura_alta
  let risk_level : Option RiskLevel :=
    if temp ≥ thresholds .critico then some .critico
    else if temp ≥ thresholds .alto then some .alto
    else if temp ≥ thresholds .medio then some .medio
    else if temp ≥ thresholds .bajo then some .bajo
    else none
  match risk_level with
  | some rl => some
      { id := none
        weather_data_id := some weather_data.id
        location_id := weather_data.location_id
        alert_type := .temperatura_alta
        risk_level := rl
        severity := if rl = .bajo ∨ rl = .medio then .warning else .advisory
        threshold_value := thresholds rl
        current_value := temp
        alert_start := now
        alert_end := none
        is_active := true
        description := "Temperatura alta detectada: " ++ toString temp ++ "°C"
        recommendations := _get_temperature_recommendations temp "alta"
        created_at := now }
  | none => none

/-- `AlertService._check_temperature_low` (lines 141-169): the only
low-is-bad rule, comparing with `≤` against decreasing thresholds. -/
def _check_temperature_low (now : Int) (weather_data : WeatherData) (temp : ℚ) :
    Option Alert :=
  let thresholds := DEFAULT_THRESHOLDS .temperatura_baja
  let risk_level : Option RiskLevel :=
    if temp ≤ thresholds .critico then some .critico
    else if temp ≤ thresholds .alto then some .alto
    else if temp ≤ thresholds .medio then some .medio
    else if temp ≤ thresholds .bajo then some .bajo
    else none
  match risk_level with
  | some rl => some
      { id := none
        weather_data_id := some weather_data.id
        location_id := weather_data.location_id
        alert_type := .temperatura_baja
        risk_level := rl
        severity := if rl = .bajo ∨ rl = .medio then .warning else .advisory
        threshold_value := thresholds rl
        current_value := temp
        alert_start := now
        alert_end := none
        is_active := true
        description := "Temperatura baja detectada: " ++ toString temp ++ "°C"
        recommendations := _get_temperature_recommendations temp "baja"
        created_at := now }
  | none => none

/-- `AlertService._check_heavy_rain` (lines 171-199). -/
def _check_heavy_rain (now : Int) (weather_data : WeatherData) (rain : ℚ) :
    Option Alert :=
  let thresholds := DEFAULT_THRESHOLDS .lluvia_intensa
  let risk_level : Option RiskLevel :=
    if rain ≥ thresholds .critico then some .critico
    else if rain ≥ thresholds .alto then some .alto
    else if rain ≥ thresholds .medio then some .medio
    else if rain ≥ thresholds .bajo then some .bajo
    else none
  match risk_level with
  | some rl => some
      { id := none
        weather_data_id := some weather_data.id
        location_id := weather_data.location_id
        alert_type := .lluvia_intensa
        risk_level := rl
        severity := if rl = .alto ∨ rl = .critico then .watch else .warning
        threshold_value := thresholds rl
        current_value := rain
        alert_start := now
        alert_end := none
        is_active := true
        description := "Lluvia intensa detectada: " ++ toString rain ++ "mm"
        recommendations := "Evitar viajes innecesarios. Manténgase en lugares seguros."
        created_at := now }
  | none => none

/-- `AlertService._check_strong_wind` (lines 201-229). -/
def _check_strong_wind (now : Int) (weather_data : WeatherData) (wind_speed : ℚ) :
    Option Alert :=
  let thresholds := DEFAULT_THRESHOLDS .viento_fuerte
  let risk_level : Option RiskLevel :=
    if wind_speed ≥ thresholds .critico then some .critico
    else if wind_speed ≥ thresholds .alto then some .alto
    else if wind_speed ≥ thresholds .medio then some .medio
    else if wind_speed ≥ thresholds .bajo then some .bajo
    else none
  match risk_level with
  | some rl => some
      { id := none
        weather_data_id := some weather_data.id
        location_id := weather_data.location_id
        alert_type := .viento_fuerte
        risk_level := rl
        severity := if rl = .alto ∨ rl = .critico then .advisory else .warning
        threshold_value := thresholds rl
        current_value := wind_speed
        alert_start := now
        alert_end := none
        is_active := true
        description := "Viento fuerte detectado: " ++ toString wind_speed ++ "m/s"
        recommendations := "Evitar actividades al aire libre. Asegurar objetos sueltos."
        created_at := now }
  | none => none

/-- `AlertService._check_high_humidity` (lines 231-259). -/
def _check_high_humidity (now : Int) (weather_data : WeatherData) (humidity : ℚ) :
    Option Alert :=
  let thresholds := DEFAULT_THRESHOLDS .humedad_alta
  let risk_level : Option RiskLevel :=
    if humidity ≥ thresholds .critico then some .critico
    else if humidity ≥ thresholds .alto then some .alto
    else if humidity ≥ thresholds .medio then some .medio
    else if humidity ≥ thresholds .bajo then some .bajo
    else none
  match risk_level with
  | some rl => some
      { id := none
        weather_data_id := some weather_data.id
        location_id := weather_data.location_id
        alert_type := .humedad_alta
        risk_level := rl
        severity := .info
        threshold_value := thresholds rl
        current_value := humidity
        alert_start := now
        alert_end := none
        is_active := true
        description := "Humedad alta detectada: " ++ toString humidity ++ "%"
        recommendations := "Manténgase hidratado. Busque lugares con ventilación."
        created_at := now }
  | none => none

/-- The temperature arm of `evaluate_weather_data` (lines 57-66): when
`temperature_2m` is not None, both temperature checks run, high first. -/
def temp_candidates (now : Int) (weather_data : WeatherData) : List Alert :=
  match weather_data.temperature_2m with
  | some temp =>
      (_check_temperature_high now weather_data temp).toList ++
      (_check_temperature_low now weather_data temp).toList
  | none => []

/-- The rain arm of `evaluate_weather_data` (lines 68-72). -/
def rain_candidates (now : Int) (weather_data : WeatherData) : List Alert :=
  match weather_data.rain with
  | some rain => (_check_heavy_rain now weather_data rain).toList
  | none => []

/-- The wind arm of `evaluate_weather_data` (lines 74-78). -/
def wind_candidates (now : Int) (weather_data : WeatherData) : List Alert :=
  match weather_data.windspeed_10m with
  | some w => (_check_strong_wind now weather_data w).toList
  | none => []

/-- The humidity arm of `evaluate_weather_data` (lines 80-84). -/
def humidity_candidates (now : Int) (weather_data : WeatherData) : List Alert :=
  match weather_data.relativehumidity_2m with
  | some h => (_check_high_humidity now weather_data h).toList
  | none => []

/-- Candidate construction of `evaluate_weather_data` (lines 54-84): for each
non-None metric, append that metric's check result to `alerts`, in source
order (temperature high, temperature low, rain, wind, humidity). -/
def candidates (now : Int) (weather_data : WeatherData) : List Alert :=
  temp_candidates now weather_data ++
  rain_candidates now weather_data ++
  wind_candidates now weather_data ++
  humidity_candidates now weather_data

/-- The dedup query of `evaluate_weather_data` (lines 89-96): is there an
active alert with the candidate's `(location_id, alert_type)` whose
`alert_start` lies within the trailing 24 hours of `now`? -/
def existing_alert_query (now : Int) (db : DB) (a : Alert) : Bool :=
  db.alerts.any fun e =>
    decide (e.location_id = a.location_id) &&
    decide (e.alert_type = a.alert_type) &&
    e.is_active &&
    decide (now - 86400 ≤ e.alert_start)

/-- The persistence loop of `evaluate_weather_data` (lines 87-102): each
candidate is inserted unless the dedup query finds a match; the session is
then committed. Pending inserts from earlier iterations are visible to later
dedup queries (autoflush), hence the fold over the evolving store. -/
def persist_candidates (now : Int) (cands : List Alert) (db : DB) : DB :=
  cands.foldl (fun d a => if existing_alert_query now d a then d else d.add now a) db

/-- `AlertService.evaluate_weather_data` (lines 52-109), success path: build
the candidates, run the dedup-gated persistence loop, and return the full
candidate list (the `alerts` local, unchanged by the loop). -/
def evaluate_weather_data (now : Int) (db : DB) (weather_data : WeatherData) :
    List Alert × DB :=
  let alerts := candidates now weather_data
  (alerts, persist_candidates now alerts db)

/-- `AlertService.evaluate_weather_data` with the store's behaviour explicit:
when `store_fails` is true the dedup/insert/commit step raises, the broad
`except` block (lines 105-107) logs, rolls back the pending inserts and falls
through to `return alerts`. No exception leaves the function, so the result
is `.ok` in both branches; the error channel of the `Except` is never used. -/
def evaluate_weather_data_caught (store_fails : Bool) (now : Int) (db : DB)
    (weather_data : WeatherData) : Except String (List Alert × DB) :=
  let alerts := candidates now weather_data
  if store_fails then .ok (alerts, db)
  else .ok (alerts, persist_candidates now alerts db)

/-- Mutation of the first row matching the id (`query(...).first()` then
attribute assignment, lines 290-293): set `is_active = False` and
`alert_end = now()` on that row only. -/
def set_inactive (now : Int) (alert_id : Nat) : List Alert → List Alert
  | [] => []
  | a :: rest =>
      if a.id = some alert_id then
        { a with is_active := false, alert_end := some now } :: rest
      else a :: set_inactive now alert_id rest

/-- `AlertService.deactivate_alert` (lines 287-300): look the alert up by id;
if present, unconditionally set `is_active = False` and `alert_end = now()`
(no already-inactive guard) and return True; if absent return False. -/
def deactivate_alert (now : Int) (db : DB) (alert_id : Nat) : Bool × DB :=
  match db.alerts.find? (fun a => decide (a.id = some alert_id)) with
  | some _ => (true, { db with alerts := set_inactive now alert_id db.alerts })
  | none => (false, db)

/-- Result of the admin endpoint: either the JSON `APIResponse` body or an
`HTTPException` with a status code. -/
inductive AdminResult where
  | apiResponse (success : Bool) (message : String)
  | httpError (status_code : Nat) (detail : String)
  deriving DecidableEq, Repr

/-- `routers/admin.py` `deactivate_alert` endpoint (lines 349-373): calls the
service and maps False to `HTTPException(404, "Alerta no encontrada")`. -/
def admin_deactivate_alert (now : Int) (db : DB) (alert_id : Nat) :
    AdminResult × DB :=
  let r := deactivate_alert now db alert_id
  if r.1 then
    (.apiResponse true ("Alerta " ++ toString alert_id ++ " desactivada exitosamente"),
     r.2)
  else (.httpError 404 "Alerta no encontrada", r.2)

/-- Insertion into a list kept sorted by `alert_start` descending
(`ORDER BY alert_start DESC`). -/
def insert_by_start_desc (a : Alert) : List Alert → List Alert
  | [] => [a]
  | b :: rest =>
      if b.alert_start < a.alert_start then a :: b :: rest
      else b :: insert_by_start_desc a rest

/-- Sort by `alert_start` descending. -/
def sort_by_start_desc : List Alert → List Alert
  | [] => []
  | a :: rest => insert_by_start_desc a (sort_by_start_desc rest)

/-- `AlertService.get_active_alerts` (lines 273-285): filter `is_active`,
then apply the location filter only when `location_id` is truthy — in Python
both `None` and `0` are falsy, so `location_id = 0` disables the filter. -/
def get_active_alerts (db : DB) (location_id : Option Nat) : List Alert :=
  let query := db.alerts.filter (·.is_active)
  let query :=
    match location_id with
    | some l =>
        if l ≠ 0 then query.filter (fun a => decide (a.location_id = l)) else query
    | none => query
  sort_by_start_desc query

/-- Alerts inside the statistics window (`Alert.created_at >= cutoff_date`,
lines 308-310 and every later filter of `get_alert_statistics`). -/
def window_alerts (cutoff : Int) (db : DB) : List Alert :=
  db.alerts.filter fun a => decide (cutoff ≤ a.created_at)

/-- Per-location count of window alerts (the `func.count(Alert.id)` of the
grouped join, lines 337-344). -/
def loc_alert_count (cutoff : Int) (db : DB) (l : Nat) : Nat :=
  ((window_alerts cutoff db).filter fun a => decide (a.location_id = l)).length

/-- The distinct location ids among the window's alerts: the `GROUP BY
Location.id` groups of the inner join `Location ⋈ Alert` (every alert's
location exists by the foreign key, so grouping the alerts directly is
equivalent), in first-appearance order. -/
def window_locations (cutoff : Int) (db : DB) : List Nat :=
  ((window_alerts cutoff db).map (·.location_id)).dedup

/-- The grouped rows `(location id, alert count)` of the most-affected
query. -/
def group_rows (cutoff : Int) (db : DB) : List (Nat × Nat) :=
  (window_locations cutoff db).map fun l => (l, loc_alert_count cutoff db l)

/-- The statistics cutoff `datetime.now() - timedelta(days=days)`
(line 305). -/
def stats_cutoff (now : Int) (days : Nat) : Int :=
  now - (days : Int) * 86400

/-- Possible results of the most-affected query (lines 337-346): the SQL
sorts the grouped rows by `count DESC` only — among tied counts the row
returned by `.first()` is whichever the database emits first, which SQL does
not specify — and `None` is returned when the join is empty. The possible
outcomes are therefore the heads of the count-descending arrangements of the
group rows. -/
def MostAffectedOutcome (cutoff : Int) (db : DB) (r : Option Nat) : Prop :=
  ∃ gs : List (Nat × Nat),
    List.Perm gs (group_rows cutoff db) ∧
    gs.Sorted (fun p q => p.2 ≥ q.2) ∧
    r = gs.head?.map Prod.fst

/-- Dispatch of `evaluate_weather_data`'s per-metric checks by alert type
(lines 57-84 route each metric to its check function). -/
def check_for_type (ty : AlertType) (now : Int) (weather_data : WeatherData)
    (v : ℚ) : Option Alert :=
  match ty with
  | .temperatura_alta => _check_temperature_high now weather_data v
  | .temperatura_baja => _check_temperature_low now weather_data v
  | .lluvia_intensa => _check_heavy_rain now weather_data v
  | .viento_fuerte => _check_strong_wind now weather_data v
  | .humedad_alta => _check_high_humidity now weather_data v

/-- Polarity of each alert type: every rule compares with `≥` except low
temperature, which compares with `≤`. -/
def high_is_bad : AlertType → Bool
  | .temperatura_baja => false
  | _ => true

/-- Following the spec's words, the tier boundary condition: "for high-is-bad:
`value ≥ threshold[tier]`; for low-is-bad: `value ≤ threshold[tier]`". -/
def boundary_holds (ty : AlertType) (r : RiskLevel) (v : ℚ) : Prop :=
  if high_is_bad ty then DEFAULT_THRESHOLDS ty r ≤ v else v ≤ DEFAULT_THRESHOLDS ty r

/-- The tiers in the order the spec mandates they be tested, most severe
first. -/
def tiers_desc : List RiskLevel :=
  [.critico, .alto, .medio, .bajo]

instance (ty : AlertType) (r : RiskLevel) (v : ℚ) :
    Decidable (boundary_holds ty r v) := by
  unfold boundary_holds
  split <;> infer_instance

/-- The dedup condition as a predicate of the pair the query actually keys
on: `existing_alert_query` inspects only the candidate's `location_id` and
`alert_type`. -/
def suppressed (now : Int) (db : DB) (l : Nat) (ty : AlertType) : Prop :=
  ∃ e ∈ db.alerts,
    e.location_id = l ∧ e.alert_type = ty ∧ e.is_active = true ∧
    now - 86400 ≤ e.alert_start

instance (now : Int) (db : DB) (l : Nat) (ty : AlertType) :
    Decidable (suppressed now db l ty) := by
  unfold suppressed
  infer_instance

/-- Number of active alerts of a given `(location, type)` in the store. -/
def active_count (db : DB) (l : Nat) (ty : AlertType) : Nat :=
  (db.alerts.filter fun a =>
    decide (a.location_id = l) && decide (a.alert_type = ty) && a.is_active).length

/-- The engine operations that write to the store: observation evaluation and
alert deactivation. -/
inductive Op where
  | eval (now : Int) (weather_data : WeatherData)
  | deact (now : Int) (alert_id : Nat)

/-- Apply one engine operation to the store. -/
def apply_op (db : DB) : Op → DB
  | .eval now wd => (evaluate_weather_data now db wd).2
  | .deact now i => (deactivate_alert now db i).2

/-- The empty store. -/
def empty_db : DB :=
  { alerts := [], nextId := 1 }

/-- Run a sequence of engine operations from the empty store. -/
def run_ops (ops : List Op) : DB :=
  ops.foldl apply_op empty_db

/-- Concrete observation: location 1, temperature 46 °C, observation
timestamp 500, every other metric absent. -/
def wd_temp46 : WeatherData :=
  { id := 7, location_id := 1, time := 500, temperature_2m := some 46,
    rain := none, windspeed_10m := none, relativehumidity_2m := none }

/-- The candidate alert that `wd_temp46` produces at evaluation time 0. -/
def alert_temp46 : Alert :=
  { id := none, weather_data_id := some 7, location_id := 1,
    alert_type := .temperatura_alta, risk_level := .critico,
    severity := .advisory, threshold_value := 45, current_value := 46,
    alert_start := 0, alert_end := none, is_active := true,
    description := "Temperatura alta detectada: 46°C",
    recommendations := "Evite la exposición directa al sol. Manténgase hidratado.",
    created_at := 0 }

/-- A store holding one persisted active alert (location 1, high
temperature, started at time 0). -/
def db_one_active : DB :=
  { alerts := [{ alert_temp46 with id := some 1 }], nextId := 2 }

/-- A store holding one window alert at location 1 and one at location 2. -/
def db_two_locations : DB :=
  { alerts := [{ alert_temp46 with id := some 1 },
               { alert_temp46 with id := some 2, location_id := 2 }],
    nextId := 3 }

/-! ### Field lemmas for the five check functions -/

/-- Any alert emitted by the high-temperature check carries the fixed type,
the observation's location, the active flag, start = now and no end. -/
theorem check_th_fields (now : Int) (wd : WeatherData) (t : ℚ) (a : Alert)
    (h : _check_temperature_high now wd t = some a) :
    a.alert_type = .temperatura_alta ∧ a.location_id = wd.location_id ∧
    a.is_active = true ∧ a.alert_start = now ∧ a.alert_end = none := by
  unfold _check_temperature_high at h
  dsimp only at h
  split at h
  · simp only [Option.some.injEq] at h
    subst h
    exact ⟨rfl, rfl, rfl, rfl, rfl⟩
  · cases h

/-- Field facts for the low-temperature check. -/
theorem check_tl_fields (now : Int) (wd : WeatherData) (t : ℚ) (a : Alert)
    (h : _check_temperature_low now wd t = some a) :
    a.alert_type = .temperatura_baja ∧ a.location_id = wd.location_id ∧
    a.is_active = true ∧ a.alert_start = now ∧ a.alert_end = none := by
  unfold _check_temperature_low at h
  dsimp only at h
  split at h
  · simp only [Option.some.injEq] at h
    subst h
    exact ⟨rfl, rfl, rfl, rfl, rfl⟩
  · cases h

/-- Field facts for the heavy-rain check. -/
theorem check_rain_fields (now : Int) (wd : WeatherData) (r : ℚ) (a : Alert)
    (h : _check_heavy_rain now wd r = some a) :
    a.alert_type = .lluvia_intensa ∧ a.location_id = wd.location_id ∧
    a.is_active = true ∧ a.alert_start = now ∧ a.alert_end = none := by
  unfold _check_heavy_rain at h
  dsimp only at h
  split at h
  · simp only [Option.some.injEq] at h
    subst h
    exact ⟨rfl, rfl, rfl, rfl, rfl⟩
  · cases h

/-- Field facts for the strong-wind check. -/
theorem check_wind_fields (now : Int) (wd : WeatherData) (w : ℚ) (a : Alert)
    (h : _check_strong_wind now wd w = some a) :
    a.alert_type = .viento_fuerte ∧ a.location_id = wd.location_id ∧
    a.is_active = true ∧ a.alert_start = now ∧ a.alert_end = none := by
  unfold _check_strong_wind at h
  dsimp only at h
  split at h
  · simp only [Option.some.injEq] at h
    subst h
    exact ⟨rfl, rfl, rfl, rfl, rfl⟩
  · cases h

/-- Field facts for the high-humidity check. -/
theorem check_hum_fields (now : Int) (wd : WeatherData) (hu : ℚ) (a : Alert)
    (h : _check_high_humidity now wd hu = some a) :
    a.alert_type = .humedad_alta ∧ a.location_id = wd.location_id ∧
    a.is_active = true ∧ a.alert_start = now ∧ a.alert_end = none := by
  unfold _check_high_humidity at h
  dsimp only at h
  split at h
  · simp only [Option.some.injEq] at h
    subst h
    exact ⟨rfl, rfl, rfl, rfl, rfl⟩
  · cases h

/-- Every candidate of an observation carries the observation's location, the
active flag, start = evaluation time, and no end timestamp. -/
theorem candidates_fields (now : Int) (wd : WeatherData) (a : Alert)
    (h : a ∈ candidates now wd) :
    a.location_id = wd.location_id ∧ a.is_active = true ∧
    a.alert_start = now ∧ a.alert_end = none := by
  unfold candidates at h
  simp only [List.mem_append] at h
  rcases h with ((h | h) | h) | h
  · unfold temp_candidates at h
    rcases hT : wd.temperature_2m with _ | t
    · rw [hT] at h
      cases h
    · rw [hT] at h
      simp only [List.mem_append, Option.mem_toList, Option.mem_def] at h
      rcases h with h | h
      · obtain ⟨_, h2, h3, h4, h5⟩ := check_th_fields now wd t a h
        exact ⟨h2, h3, h4, h5⟩
      · obtain ⟨_, h2, h3, h4, h5⟩ := check_tl_fields now wd t a h
        exact ⟨h2, h3, h4, h5⟩
  · unfold rain_candidates at h
    rcases hT : wd.rain with _ | r
    · rw [hT] at h
      cases h
    · rw [hT] at h
      simp only [Option.mem_toList, Option.mem_def] at h
      obtain ⟨_, h2, h3, h4, h5⟩ := check_rain_fields now wd r a h
      exact ⟨h2, h3, h4, h5⟩
  · unfold wind_candidates at h
    rcases hT : wd.windspeed_10m with _ | w
    · rw [hT] at h
      cases h
    · rw [hT] at h
      simp only [Option.mem_toList, Option.mem_def] at h
      obtain ⟨_, h2, h3, h4, h5⟩ := check_wind_fields now wd w a h
      exact ⟨h2, h3, h4, h5⟩
  · unfold humidity_candidates at h
    rcases hT : wd.relativehumidity_2m with _ | hu
    · rw [hT] at h
      cases h
    · rw [hT] at h
      simp only [Option.mem_toList, Option.mem_def] at h
      obtain ⟨_, h2, h3, h4, h5⟩ := check_hum_fields now wd hu a h
      exact ⟨h2, h3, h4, h5⟩

/-! ### At most one candidate per alert type -/

/-- A check's output holds at most one alert. -/
theorem opt_filter_length_le_one (o : Option Alert) (p : Alert → Bool) :
    (o.toList.filter p).length ≤ 1 := by
  cases o with
  | none => simp
  | some a => by_cases hp : p a = true <;> simp [List.filter_cons, hp]

/-- A check's output contributes nothing to the candidates of another type. -/
theorem seg_filter_eq_nil {o : Option Alert} {c ty : AlertType}
    (ho : ∀ a, o = some a → a.alert_type = c) (hne : ty ≠ c) :
    o.toList.filter (fun a => decide (a.alert_type = ty)) = [] := by
  cases o with
  | none => rfl
  | some a =>
      have hc := ho a rfl
      have : ¬(a.alert_type = ty) := by
        rw [hc]
        exact fun h => hne h.symm
      simp [List.filter_cons, this]

/-- The temperature arm contributes at most one candidate of any type. -/
theorem temp_filter_le_one (now : Int) (wd : WeatherData) (ty : AlertType) :
    ((temp_candidates now wd).filter fun a => decide (a.alert_type = ty)).length ≤ 1 := by
  unfold temp_candidates
  rcases hT : wd.temperature_2m with _ | t
  · simp
  · rw [List.filter_append, List.length_append]
    by_cases hty : ty = .temperatura_alta
    · subst hty
      have h2 : ((_check_temperature_low now wd t).toList.filter
          fun a => decide (a.alert_type = .temperatura_alta)).length = 0 := by
        rw [seg_filter_eq_nil (fun a h => (check_tl_fields now wd t a h).1) (by decide)]
        rfl
      rw [h2]
      simpa using opt_filter_length_le_one (_check_temperature_high now wd t) _
    · have h1 : ((_check_temperature_high now wd t).toList.filter
          fun a => decide (a.alert_type = ty)).length = 0 := by
        rw [seg_filter_eq_nil (fun a h => (check_th_fields now wd t a h).1) hty]
        rfl
      rw [h1]
      simpa using opt_filter_length_le_one (_check_temperature_low now wd t) _

/-- The temperature arm has no candidate outside the two temperature types. -/
theorem temp_filter_nil (now : Int) (wd : WeatherData) {ty : AlertType}
    (h1 : ty ≠ .temperatura_alta) (h2 : ty ≠ .temperatura_baja) :
    (temp_candidates now wd).filter (fun a => decide (a.alert_type = ty)) = [] := by
  unfold temp_candidates
  rcases hT : wd.temperature_2m with _ | t
  · rfl
  · rw [List.filter_append,
      seg_filter_eq_nil (fun a h => (check_th_fields now wd t a h).1) h1,
      seg_filter_eq_nil (fun a h => (check_tl_fields now wd t a h).1) h2]
    rfl

/-- The rain arm contributes at most one candidate. -/
theorem rain_filter_le_one (now : Int) (wd : WeatherData) (p : Alert → Bool) :
    ((rain_candidates now wd).filter p).length ≤ 1 := by
  unfold rain_candidates
  rcases hT : wd.rain with _ | r
  · simp
  · exact opt_filter_length_le_one _ _

/-- The rain arm has no candidate of another type. -/
theorem rain_filter_nil (now : Int) (wd : WeatherData) {ty : AlertType}
    (h1 : ty ≠ .lluvia_intensa) :
    (rain_candidates now wd).filter (fun a => decide (a.alert_type = ty)) = [] := by
  unfold rain_candidates
  rcases hT : wd.rain with _ | r
  · rfl
  · exact seg_filter_eq_nil (fun a h => (check_rain_fields now wd r a h).1) h1

/-- The wind arm contributes at most one candidate. -/
theorem wind_filter_le_one (now : Int) (wd : WeatherData) (p : Alert → Bool) :
    ((wind_candidates now wd).filter p).length ≤ 1 := by
  unfold wind_candidates
  rcases hT : wd.windspeed_10m with _ | w
  · simp
  · exact opt_filter_length_le_one _ _

/-- The wind arm has no candidate of another type. -/
theorem wind_filter_nil (now : Int) (wd : WeatherData) {ty : AlertType}
    (h1 : ty ≠ .viento_fuerte) :
    (wind_candidates now wd).filter (fun a => decide (a.alert_type = ty)) = [] := by
  unfold wind_candidates
  rcases hT : wd.windspeed_10m with _ | w
  · rfl
  · exact seg_filter_eq_nil (fun a h => (check_wind_fields now wd w a h).1) h1

/-- The humidity arm contributes at most one candidate. -/
theorem humidity_filter_le_one (now : Int) (wd : WeatherData) (p : Alert → Bool) :
    ((humidity_candidates now wd).filter p).length ≤ 1 := by
  unfold humidity_candidates
  rcases hT : wd.relativehumidity_2m with _ | hu
  · simp
  · exact opt_filter_length_le_one _ _

/-- The humidity arm has no candidate of another type. -/
theorem humidity_filter_nil (now : Int) (wd : WeatherData) {ty : AlertType}
    (h1 : ty ≠ .humedad_alta) :
    (humidity_candidates now wd).filter (fun a => decide (a.alert_type = ty)) = [] := by
  unfold humidity_candidates
  rcases hT : wd.relativehumidity_2m with _ | hu
  · rfl
  · exact seg_filter_eq_nil (fun a h => (check_hum_fields now wd hu a h).1) h1

/-- An observation never yields two candidates of the same alert type: the
five metric arms emit pairwise distinct types. -/
theorem candidates_type_count_le_one (now : Int) (wd : WeatherData) (ty : AlertType) :
    ((candidates now wd).filter fun a => decide (a.alert_type = ty)).length ≤ 1 := by
  unfold candidates
  rw [List.filter_append, List.filter_append, List.filter_append,
      List.length_append, List.length_append, List.length_append]
  cases ty with
  | temperatura_alta =>
      rw [rain_filter_nil now wd (by decide), wind_filter_nil now wd (by decide),
        humidity_filter_nil now wd (by decide)]
      simpa using temp_filter_le_one now wd _
  | temperatura_baja =>
      rw [rain_filter_nil now wd (by decide), wind_filter_nil now wd (by decide),
        humidity_filter_nil now wd (by decide)]
      simpa using temp_filter_le_one now wd _
  | lluvia_intensa =>
      rw [temp_filter_nil now wd (by decide) (by decide),
        wind_filter_nil now wd (by decide), humidity_filter_nil now wd (by decide)]
      simpa using rain_filter_le_one now wd _
  | viento_fuerte =>
      rw [temp_filter_nil now wd (by decide) (by decide),
        rain_filter_nil now wd (by decide), humidity_filter_nil now wd (by decide)]
      simpa using wind_filter_le_one now wd _
  | humedad_alta =>
      rw [temp_filter_nil now wd (by decide) (by decide),
        rain_filter_nil now wd (by decide), wind_filter_nil now wd (by decide)]
      simpa using humidity_filter_le_one now wd _

/-! ### The dedup-gated persistence loop -/

/-- The dedup query decides exactly the suppression predicate at the
candidate's `(location, type)` pair. -/
theorem existing_alert_query_iff (now : Int) (db : DB) (a : Alert) :
    existing_alert_query now db a = true ↔
      suppressed now db a.location_id a.alert_type := by
  unfold existing_alert_query suppressed
  rw [List.any_eq_true]
  constructor
  · rintro ⟨e, he, hcond⟩
    simp only [Bool.and_eq_true, decide_eq_true_eq] at hcond
    exact ⟨e, he, hcond.1.1.1, hcond.1.1.2, hcond.1.2, hcond.2⟩
  · rintro ⟨e, he, h1, h2, h3, h4⟩
    exact ⟨e, he, by simp [h1, h2, h3, h4]⟩

/-- Unfolding of the persistence fold over the head candidate. -/
theorem persist_cons (now : Int) (c : Alert) (cs : List Alert) (db : DB) :
    persist_candidates now (c :: cs) db =
      persist_candidates now cs
        (if existing_alert_query now db c then db else db.add now c) := rfl

/-- The rows of the store after an insert. -/
theorem add_alerts (db : DB) (now : Int) (a : Alert) :
    (db.add now a).alerts =
      db.alerts ++ [{ a with id := some db.nextId, created_at := now }] := rfl

/-- Inserting a candidate bumps the active `(location, type)` count exactly
when the candidate matches. -/
theorem active_count_add (db : DB) (now : Int) (a : Alert) (l : Nat) (ty : AlertType) :
    active_count (db.add now a) l ty =
      active_count db l ty +
        (if a.location_id = l ∧ a.alert_type = ty ∧ a.is_active = true then 1 else 0) := by
  unfold active_count
  rw [add_alerts, List.filter_append, List.length_append]
  congr 1
  simp only [List.filter_cons, List.filter_nil]
  split_ifs with h1 h2 h2 <;>
    simp_all [Bool.and_eq_true, decide_eq_true_eq]

/-- Inserting a candidate extends the suppression predicate by the
candidate's own row. -/
theorem suppressed_add (now now' : Int) (db : DB) (a : Alert) (l : Nat) (ty : AlertType) :
    suppressed now' (db.add now a) l ty ↔
      (suppressed now' db l ty ∨
        (a.location_id = l ∧ a.alert_type = ty ∧ a.is_active = true ∧
          now' - 86400 ≤ a.alert_start)) := by
  unfold suppressed
  rw [add_alerts]
  constructor
  · rintro ⟨e, he, hP⟩
    rcases List.mem_append.mp he with he | he
    · exact .inl ⟨e, he, hP⟩
    · right
      have : e = { a with id := some db.nextId, created_at := now } := by simpa using he
      subst this
      exact hP
  · rintro (⟨e, he, hP⟩ | hP)
    · exact ⟨e, List.mem_append.mpr (.inl he), hP⟩
    · exact ⟨{ a with id := some db.nextId, created_at := now },
        List.mem_append.mpr (.inr (by simp)), hP⟩

/-- Persisting candidates none of which has type `ty` leaves the active
`(location, ty)` count unchanged. -/
theorem persist_no_ty_active_count (now : Int) (L : Nat) (ty : AlertType) :
    ∀ (cs : List Alert) (db : DB), (∀ c ∈ cs, c.alert_type ≠ ty) →
      active_count (persist_candidates now cs db) L ty = active_count db L ty := by
  intro cs
  induction cs with
  | nil => intro db _; rfl
  | cons c cs ih =>
      intro db hne
      rw [persist_cons]
      by_cases hq : existing_alert_query now db c = true
      · rw [if_pos hq]
        exact ih db fun c' h => hne c' (List.mem_cons_of_mem c h)
      · rw [if_neg hq]
        rw [ih _ fun c' h => hne c' (List.mem_cons_of_mem c h)]
        rw [active_count_add]
        rw [if_neg fun h => hne c (List.mem_cons_self c cs) h.2.1]
        omega

/-- Rows of the store after the persistence loop: each is either a
pre-existing row or is one of the candidates (its engine-visible fields
unchanged by the insert, which touches only `id` and `created_at`). -/
theorem persist_mem (now : Int) :
    ∀ (cs : List Alert) (db : DB) (a : Alert),
      a ∈ (persist_candidates now cs db).alerts →
      a ∈ db.alerts ∨ ∃ c ∈ cs,
        a.alert_type = c.alert_type ∧ a.location_id = c.location_id ∧
        a.is_active = c.is_active ∧ a.alert_start = c.alert_start ∧
        a.alert_end = c.alert_end := by
  intro cs
  induction cs with
  | nil => intro db a h; exact .inl h
  | cons c cs ih =>
      intro db a h
      rw [persist_cons] at h
      by_cases hq : existing_alert_query now db c = true
      · rw [if_pos hq] at h
        rcases ih db a h with h | ⟨c', hc', hf⟩
        · exact .inl h
        · exact .inr ⟨c', List.mem_cons_of_mem c hc', hf⟩
      · rw [if_neg hq] at h
        rcases ih _ a h with h | ⟨c', hc', hf⟩
        · rw [add_alerts] at h
          rcases List.mem_append.mp h with h | h
          · exact .inl h
          · have ha : a = { c with id := some db.nextId, created_at := now } := by
              simpa using h
            subst ha
            exact .inr ⟨c, List.mem_cons_self c cs, rfl, rfl, rfl, rfl, rfl⟩
        · exact .inr ⟨c', List.mem_cons_of_mem c hc', hf⟩

/-- When every candidate is suppressed, the persistence loop is a no-op. -/
theorem persist_nop (now : Int) :
    ∀ (cs : List Alert) (db : DB),
      (∀ c ∈ cs, existing_alert_query now db c = true) →
      persist_candidates now cs db = db := by
  intro cs
  induction cs with
  | nil => intro db _; rfl
  | cons c cs ih =>
      intro db hall
      rw [persist_cons, if_pos (hall c (List.mem_cons_self c cs))]
      exact ih db fun c' h => hall c' (List.mem_cons_of_mem c h)

/-- Master accounting lemma for the persistence loop: for candidate lists
with the evaluator's shape (all at one location, all active, started at
`now`, at most one per type), the active `(location, ty)` count grows by one
exactly when a type-`ty` candidate exists and the store held no suppressing
alert, and is unchanged otherwise. -/
theorem persist_active_count (now : Int) (L : Nat) (ty : AlertType) :
    ∀ (cs : List Alert) (db : DB),
      (∀ c ∈ cs, c.location_id = L ∧ c.is_active = true ∧ c.alert_start = now) →
      ((cs.filter fun c => decide (c.alert_type = ty)).length ≤ 1) →
      active_count (persist_candidates now cs db) L ty =
        active_count db L ty +
          (if (∃ c ∈ cs, c.alert_type = ty) ∧ ¬ suppressed now db L ty then 1
           else 0) := by
  intro cs
  induction cs with
  | nil =>
      intro db _ _
      simp [persist_candidates]
  | cons c cs ih =>
      intro db hfields hcount
      have hfc := hfields c (List.mem_cons_self c cs)
      have hfcs : ∀ c' ∈ cs, c'.location_id = L ∧ c'.is_active = true ∧
          c'.alert_start = now :=
        fun c' h => hfields c' (List.mem_cons_of_mem c h)
      rw [persist_cons]
      by_cases hty : c.alert_type = ty
      · have hcs : ∀ c' ∈ cs, c'.alert_type ≠ ty := by
          intro c' hc' heq
          have hmem : c' ∈ cs.filter fun x => decide (x.alert_type = ty) :=
            List.mem_filter.mpr ⟨hc', by simp [heq]⟩
          have h1 : 1 ≤ (cs.filter fun x => decide (x.alert_type = ty)).length :=
            List.length_pos.mpr (List.ne_nil_of_mem hmem)
          have h2 : ((c :: cs).filter fun x => decide (x.alert_type = ty)).length =
              (cs.filter fun x => decide (x.alert_type = ty)).length + 1 := by
            rw [List.filter_cons, if_pos (by simp [hty])]
            simp
          omega
        by_cases hq : existing_alert_query now db c = true
        · rw [if_pos hq, persist_no_ty_active_count now L ty cs db hcs]
          have hsup : suppressed now db L ty := by
            have h := (existing_alert_query_iff now db c).mp hq
            rwa [hfc.1, hty] at h
          rw [if_neg fun h => h.2 hsup]
          omega
        · rw [if_neg hq, persist_no_ty_active_count now L ty cs _ hcs,
            active_count_add, if_pos ⟨hfc.1, hty, hfc.2.1⟩]
          have hnsup : ¬ suppressed now db L ty := by
            intro hs
            apply hq
            rw [existing_alert_query_iff, hfc.1, hty]
            exact hs
          rw [if_pos ⟨⟨c, List.mem_cons_self c cs, hty⟩, hnsup⟩]
      · have hcount' : ((cs.filter fun c => decide (c.alert_type = ty)).length ≤ 1) := by
          have h2 : ((c :: cs).filter fun x => decide (x.alert_type = ty)) =
              (cs.filter fun x => decide (x.alert_type = ty)) := by
            rw [List.filter_cons, if_neg (by simp [hty])]
          rw [h2] at hcount
          exact hcount
        have hex : (∃ c' ∈ c :: cs, c'.alert_type = ty) ↔
            (∃ c' ∈ cs, c'.alert_type = ty) := by
          constructor
          · rintro ⟨c', hc', he⟩
            rcases List.mem_cons.mp hc' with rfl | hc'
            · exact absurd he hty
            · exact ⟨c', hc', he⟩
          · rintro ⟨c', hc', he⟩
            exact ⟨c', List.mem_cons_of_mem c hc', he⟩
        by_cases hq : existing_alert_query now db c = true
        · rw [if_pos hq, ih db hfcs hcount']
          congr 1
          simp only [hex]
        · rw [if_neg hq, ih _ hfcs hcount', active_count_add,
            if_neg fun h => hty h.2.1]
          have hsup_iff : suppressed now (db.add now c) L ty ↔
              suppressed now db L ty := by
            rw [suppressed_add]
            constructor
            · rintro (h | h)
              · exact h
              · exact absurd h.2.1 hty
            · exact .inl
          congr 1
          simp only [hex, hsup_iff]

/-- A `(location, type)` pair with no rows at all has active count zero. -/
theorem active_count_eq_zero (db : DB) (L : Nat) (ty : AlertType)
    (h : ∀ a ∈ db.alerts, ¬(a.location_id = L ∧ a.alert_type = ty)) :
    active_count db L ty = 0 := by
  unfold active_count
  rw [List.length_eq_zero]
  apply List.filter_eq_nil_iff.mpr
  intro a ha
  simp only [Bool.and_eq_true, decide_eq_true_eq]
  rintro ⟨⟨h1, h2⟩, _⟩
  exact h a ha ⟨h1, h2⟩

/-- A positive active `(location, type)` count exhibits an active row. -/
theorem active_count_pos_mem (db : DB) (L : Nat) (ty : AlertType)
    (h : 0 < active_count db L ty) :
    ∃ a ∈ db.alerts, a.location_id = L ∧ a.alert_type = ty ∧ a.is_active = true := by
  unfold active_count at h
  obtain ⟨a, ha⟩ := List.exists_mem_of_length_pos h
  have hm := List.mem_filter.mp ha
  simp only [Bool.and_eq_true, decide_eq_true_eq] at hm
  exact ⟨a, hm.1, hm.2.1.1, hm.2.1.2, hm.2.2⟩

/-- C1. Duplicate suppression: a candidate of type `ty` is persisted by
`evaluate_weather_data` if and only if the store holds no active alert with
the same `(location id, alert type)` whose start timestamp lies within the
trailing 24-hour suppression window at evaluation time (first conjunct: the
active count grows by one exactly under that condition); consequently,
processing the same observation twice for the same location within the
window leaves exactly one persisted active alert for that `(location, type)`
(second conjunct). -/
theorem C1_duplicate_suppression (now1 now2 : Int) (db : DB)
    (wd : WeatherData) (ty : AlertType) :
    (active_count (evaluate_weather_data now1 db wd).2 wd.location_id ty =
      active_count db wd.location_id ty +
        (if (∃ c ∈ candidates now1 wd, c.alert_type = ty) ∧
            ¬ suppressed now1 db wd.location_id ty then 1 else 0)) ∧
    ((∀ a ∈ db.alerts, ¬(a.location_id = wd.location_id ∧ a.alert_type = ty)) →
      (∃ c ∈ candidates now1 wd, c.alert_type = ty) →
      (∃ c ∈ candidates now2 wd, c.alert_type = ty) →
      now2 - 86400 ≤ now1 →
      active_count
        (evaluate_weather_data now2 (evaluate_weather_data now1 db wd).2 wd).2
        wd.location_id ty = 1) := by
  have partA : ∀ (now : Int) (d : DB),
      active_count (evaluate_weather_data now d wd).2 wd.location_id ty =
        active_count d wd.location_id ty +
          (if (∃ c ∈ candidates now wd, c.alert_type = ty) ∧
              ¬ suppressed now d wd.location_id ty then 1 else 0) := by
    intro now d
    exact persist_active_count now wd.location_id ty (candidates now wd) d
      (fun c hc => by
        obtain ⟨h1, h2, h3, _⟩ := candidates_fields now wd c hc
        exact ⟨h1, h2, h3⟩)
      (candidates_type_count_le_one now wd ty)
  refine ⟨partA now1 db, ?_⟩
  intro h0 hc1 hc2 hw
  have hnsup1 : ¬ suppressed now1 db wd.location_id ty := by
    rintro ⟨e, he, h1, h2, _, _⟩
    exact h0 e he ⟨h1, h2⟩
  have hz : active_count db wd.location_id ty = 0 := active_count_eq_zero db _ _ h0
  have h1count : active_count (evaluate_weather_data now1 db wd).2 wd.location_id ty
      = 1 := by
    rw [partA now1 db, hz, if_pos ⟨hc1, hnsup1⟩]
  have hsup2 : suppressed now2 (evaluate_weather_data now1 db wd).2
      wd.location_id ty := by
    obtain ⟨a, ha, hl, hty, hact⟩ :=
      active_count_pos_mem _ _ _ (by rw [h1count]; exact Nat.zero_lt_one)
    rcases persist_mem now1 (candidates now1 wd) db a ha with hmem | ⟨c, hc, hf⟩
    · exact absurd ⟨hl, hty⟩ (h0 a hmem)
    · obtain ⟨_, _, hstart, _⟩ := candidates_fields now1 wd c hc
      exact ⟨a, ha, hl, hty, hact, by rw [hf.2.2.2.1, hstart]; exact hw⟩
  rw [partA now2 _, h1count, if_neg fun h => h.2 hsup2]

/-- Witness for C1 at a concrete scenario: the observation `wd_temp46`
(46 °C at location 1) evaluated at times 0 and 60 against the empty store
leaves exactly one active high-temperature alert. -/
theorem C1_duplicate_suppression_witness :
    active_count
      (evaluate_weather_data 60 (evaluate_weather_data 0 empty_db wd_temp46).2
        wd_temp46).2
      wd_temp46.location_id .temperatura_alta = 1 :=
  (C1_duplicate_suppression 0 60 empty_db wd_temp46 .temperatura_alta).2
    (by decide) (by decide) (by decide) (by decide)

/-! ### Tier selection -/

/-- The high-temperature cascade, as an explicit comparison chain. -/
theorem check_th_risk (now : Int) (wd : WeatherData) (t : ℚ) :
    (_check_temperature_high now wd t).map Alert.risk_level =
      (if t ≥ 45 then some RiskLevel.critico
       else if t ≥ 40 then some RiskLevel.alto
       else if t ≥ 35 then some RiskLevel.medio
       else if t ≥ 30 then some RiskLevel.bajo
       else none) := by
  unfold _check_temperature_high
  simp only [DEFAULT_THRESHOLDS]
  split_ifs <;> rfl

/-- The low-temperature cascade, as an explicit comparison chain. -/
theorem check_tl_risk (now : Int) (wd : WeatherData) (t : ℚ) :
    (_check_temperature_low now wd t).map Alert.risk_level =
      (if t ≤ -10 then some RiskLevel.critico
       else if t ≤ -5 then some RiskLevel.alto
       else if t ≤ 0 then some RiskLevel.medio
       else if t ≤ 5 then some RiskLevel.bajo
       else none) := by
  unfold _check_temperature_low
  simp only [DEFAULT_THRESHOLDS]
  split_ifs <;> rfl

/-- The heavy-rain cascade, as an explicit comparison chain. -/
theorem check_rain_risk (now : Int) (wd : WeatherData) (r : ℚ) :
    (_check_heavy_rain now wd r).map Alert.risk_level =
      (if r ≥ 100 then some RiskLevel.critico
       else if r ≥ 50 then some RiskLevel.alto
       else if r ≥ 25 then some RiskLevel.medio
       else if r ≥ 10 then some RiskLevel.bajo
       else none) := by
  unfold _check_heavy_rain
  simp only [DEFAULT_THRESHOLDS]
  split_ifs <;> rfl

/-- The strong-wind cascade, as an explicit comparison chain. -/
theorem check_wind_risk (now : Int) (wd : WeatherData) (w : ℚ) :
    (_check_strong_wind now wd w).map Alert.risk_level =
      (if w ≥ 75 then some RiskLevel.critico
       else if w ≥ 50 then some RiskLevel.alto
       else if w ≥ 35 then some RiskLevel.medio
       else if w ≥ 20 then some RiskLevel.bajo
       else none) := by
  unfold _check_strong_wind
  simp only [DEFAULT_THRESHOLDS]
  split_ifs <;> rfl

/-- The high-humidity cascade, as an explicit comparison chain. -/
theorem check_hum_risk (now : Int) (wd : WeatherData) (hu : ℚ) :
    (_check_high_humidity now wd hu).map Alert.risk_level =
      (if hu ≥ 98 then some RiskLevel.critico
       else if hu ≥ 95 then some RiskLevel.alto
       else if hu ≥ 90 then some RiskLevel.medio
       else if hu ≥ 80 then some RiskLevel.bajo
       else none) := by
  unfold _check_high_humidity
  simp only [DEFAULT_THRESHOLDS]
  split_ifs <;> rfl

/-- Each check's assigned tier is the first tier, tested most severe first,
whose spec boundary condition holds. -/
theorem check_risk_eq_find (ty : AlertType) (now : Int) (wd : WeatherData) (v : ℚ) :
    (check_for_type ty now wd v).map Alert.risk_level =
      tiers_desc.find? fun r => decide (boundary_holds ty r v) := by
  cases ty with
  | temperatura_alta =>
      rw [show check_for_type .temperatura_alta now wd v =
        _check_temperature_high now wd v from rfl, check_th_risk]
      simp only [tiers_desc, boundary_holds, high_is_bad, DEFAULT_THRESHOLDS,
        if_true, List.find?, ge_iff_le]
      by_cases h1 : (45:ℚ) ≤ v <;> by_cases h2 : (40:ℚ) ≤ v <;>
        by_cases h3 : (35:ℚ) ≤ v <;> by_cases h4 : (30:ℚ) ≤ v <;>
        simp [h1, h2, h3, h4]
  | temperatura_baja =>
      rw [show check_for_type .temperatura_baja now wd v =
        _check_temperature_low now wd v from rfl, check_tl_risk]
      simp only [tiers_desc, boundary_holds, high_is_bad, DEFAULT_THRESHOLDS,
        if_false, List.find?]
      by_cases h1 : v ≤ (-10:ℚ) <;> by_cases h2 : v ≤ (-5:ℚ) <;>
        by_cases h3 : v ≤ (0:ℚ) <;> by_cases h4 : v ≤ (5:ℚ) <;>
        simp [h1, h2, h3, h4]
  | lluvia_intensa =>
      rw [show check_for_type .lluvia_intensa now wd v =
        _check_heavy_rain now wd v from rfl, check_rain_risk]
      simp only [tiers_desc, boundary_holds, high_is_bad, DEFAULT_THRESHOLDS,
        if_true, List.find?, ge_iff_le]
      by_cases h1 : (100:ℚ) ≤ v <;> by_cases h2 : (50:ℚ) ≤ v <;>
        by_cases h3 : (25:ℚ) ≤ v <;> by_cases h4 : (10:ℚ) ≤ v <;>
        simp [h1, h2, h3, h4]
  | viento_fuerte =>
      rw [show check_for_type .viento_fuerte now wd v =
        _check_strong_wind now wd v from rfl, check_wind_risk]
      simp only [tiers_desc, boundary_holds, high_is_bad, DEFAULT_THRESHOLDS,
        if_true, List.find?, ge_iff_le]
      by_cases h1 : (75:ℚ) ≤ v <;> by_cases h2 : (50:ℚ) ≤ v <;>
        by_cases h3 : (35:ℚ) ≤ v <;> by_cases h4 : (20:ℚ) ≤ v <;>
        simp [h1, h2, h3, h4]
  | humedad_alta =>
      rw [show check_for_type .humedad_alta now wd v =
        _check_high_humidity now wd v from rfl, check_hum_risk]
      simp only [tiers_desc, boundary_holds, high_is_bad, DEFAULT_THRESHOLDS,
        if_true, List.find?, ge_iff_le]
      by_cases h1 : (98:ℚ) ≤ v <;> by_cases h2 : (95:ℚ) ≤ v <;>
        by_cases h3 : (90:ℚ) ≤ v <;> by_cases h4 : (80:ℚ) ≤ v <;>
        simp [h1, h2, h3, h4]

/-- The first tier found in descending order satisfies its boundary and every
strictly more severe tier fails its boundary. -/
theorem find_tier_most_severe (ty : AlertType) (v : ℚ) (r : RiskLevel)
    (h : tiers_desc.find? (fun r => decide (boundary_holds ty r v)) = some r) :
    boundary_holds ty r v ∧ ∀ r', r.ord < r'.ord → ¬ boundary_holds ty r' v := by
  unfold tiers_desc at h
  by_cases h1 : boundary_holds ty .critico v <;>
    by_cases h2 : boundary_holds ty .alto v <;>
    by_cases h3 : boundary_holds ty .medio v <;>
    by_cases h4 : boundary_holds ty .bajo v <;>
    simp only [List.find?, h1, h2, h3, h4, decide_True, decide_False,
      Option.some.injEq, reduceCtorEq] at h <;>
    first
    | exact absurd h (by simp)
    | (subst h
       refine ⟨by assumption, ?_⟩
       rintro (_ | _ | _ | _) hord <;>
         simp only [RiskLevel.ord] at hord <;>
         first
         | omega
         | assumption)

/-- C2. Tier selection order: for every metric value and every alert type,
the assigned risk tier is the first tier, tested `crítico → alto → medio →
bajo`, whose boundary condition holds (`value ≥ threshold` for high-is-bad
types, `value ≤ threshold` for low-is-bad), which is also the most severe
satisfied tier: a tier is assigned only when its boundary holds and every
strictly more severe tier's boundary fails — so a value exactly equal to the
`crítico` threshold classifies as `crítico`, not `alto` — and when no tier's
boundary holds, no candidate is produced for that metric. -/
theorem C2_tier_selection (ty : AlertType) (now : Int) (wd : WeatherData) (v : ℚ) :
    ((check_for_type ty now wd v).map Alert.risk_level =
      tiers_desc.find? fun r => decide (boundary_holds ty r v)) ∧
    (∀ r, (check_for_type ty now wd v).map Alert.risk_level = some r →
      boundary_holds ty r v ∧ ∀ r', r.ord < r'.ord → ¬ boundary_holds ty r' v) ∧
    ((∀ r, ¬ boundary_holds ty r v) → check_for_type ty now wd v = none) := by
  refine ⟨check_risk_eq_find ty now wd v, ?_, ?_⟩
  · intro r hr
    rw [check_risk_eq_find ty now wd v] at hr
    exact find_tier_most_severe ty v r hr
  · intro hall
    have hn : tiers_desc.find? (fun r => decide (boundary_holds ty r v)) = none :=
      List.find?_eq_none.mpr fun r _ => by simpa using hall r
    have hm : (check_for_type ty now wd v).map Alert.risk_level = none := by
      rw [check_risk_eq_find ty now wd v, hn]
    exact Option.map_eq_none'.mp hm

/-- Witness for C2: at 45 °C — exactly the `crítico` threshold of the
high-is-bad type `temperatura_alta` — the assigned tier is `crítico`; and at
20 °C no tier's boundary holds and no candidate is produced. -/
theorem C2_tier_selection_witness :
    ((check_for_type .temperatura_alta 0 wd_temp46 45).map Alert.risk_level =
        some RiskLevel.critico ∧
      boundary_holds .temperatura_alta .critico 45 ∧
      (∀ r', RiskLevel.critico.ord < r'.ord →
        ¬ boundary_holds .temperatura_alta r' 45)) ∧
    check_for_type .temperatura_alta 0 wd_temp46 20 = none := by
  constructor
  · have h := (C2_tier_selection .temperatura_alta 0 wd_temp46 45).2.1
      RiskLevel.critico (by decide)
    exact ⟨by decide, h.1, h.2⟩
  · exact (C2_tier_selection .temperatura_alta 0 wd_temp46 20).2.2
      (by intro r; cases r <;> decide)

/-! ### Alert lifecycle -/

/-- Rows after a deactivation update: each is either untouched or is an
original row stamped inactive with the end time. -/
theorem set_inactive_mem (now : Int) (i : Nat) :
    ∀ (l : List Alert) (a : Alert), a ∈ set_inactive now i l →
      a ∈ l ∨ ∃ b ∈ l, a = { b with is_active := false, alert_end := some now } := by
  intro l
  induction l with
  | nil => intro a h; cases h
  | cons b l ih =>
      intro a h
      unfold set_inactive at h
      by_cases hb : b.id = some i
      · rw [if_pos hb] at h
        rcases List.mem_cons.mp h with rfl | h
        · exact .inr ⟨b, List.mem_cons_self b l, rfl⟩
        · exact .inl (List.mem_cons_of_mem b h)
      · rw [if_neg hb] at h
        rcases List.mem_cons.mp h with rfl | h
        · exact .inl (List.mem_cons_self a l)
        · rcases ih a h with h | ⟨b', hb', he⟩
          · exact .inl (List.mem_cons_of_mem b h)
          · exact .inr ⟨b', List.mem_cons_of_mem b hb', he⟩

/-- The lifecycle invariant of the data model: an alert is active iff its end
timestamp is absent. -/
def LifecycleInv (db : DB) : Prop :=
  ∀ a ∈ db.alerts, a.is_active = true ↔ a.alert_end = none

/-- Both engine operations preserve the lifecycle invariant. -/
theorem apply_op_inv (db : DB) (op : Op) (h : LifecycleInv db) :
    LifecycleInv (apply_op db op) := by
  cases op with
  | eval now wd =>
      intro a ha
      rcases persist_mem now (candidates now wd) db a ha with hm | ⟨c, hc, hf⟩
      · exact h a hm
      · obtain ⟨_, h2, _, h4⟩ := candidates_fields now wd c hc
        rw [hf.2.2.1, hf.2.2.2.2, h2, h4]
        simp
  | deact now i =>
      show LifecycleInv (deactivate_alert now db i).2
      unfold deactivate_alert
      split
      · intro a ha
        rcases set_inactive_mem now i db.alerts a ha with hm | ⟨b, _, rfl⟩
        · exact h a hm
        · simp
      · exact h

/-- C3. Alert lifecycle invariant: in every store reachable by the engine's
operations (evaluation-with-persistence and deactivation) every alert is
active iff its end timestamp is absent; creation emits candidates with
`active = true` and no end timestamp; and a row changed by a deactivation is
stamped `active = false` together with the end timestamp. -/
theorem C3_lifecycle_invariant (ops : List Op) (a : Alert) (now : Int)
    (wd : WeatherData) (db : DB) (i : Nat) :
    (a ∈ (run_ops ops).alerts → (a.is_active = true ↔ a.alert_end = none)) ∧
    (a ∈ candidates now wd → a.is_active = true ∧ a.alert_end = none) ∧
    (a ∈ (deactivate_alert now db i).2.alerts → a ∉ db.alerts →
      a.is_active = false ∧ a.alert_end = some now) := by
  refine ⟨?_, ?_, ?_⟩
  · intro h
    suffices h2 : ∀ (ops : List Op) (d : DB), LifecycleInv d →
        LifecycleInv (ops.foldl apply_op d) by
      exact h2 ops empty_db (fun a ha => by cases ha) a h
    intro ops
    induction ops with
    | nil => intro d hd; exact hd
    | cons op ops ih => intro d hd; exact ih _ (apply_op_inv d op hd)
  · intro h
    obtain ⟨_, h2, _, h4⟩ := candidates_fields now wd a h
    exact ⟨h2, h4⟩
  · intro h hnot
    revert h
    unfold deactivate_alert
    split
    · intro h
      rcases set_inactive_mem now i db.alerts a h with hm | ⟨b, _, rfl⟩
      · exact absurd hm hnot
      · exact ⟨rfl, rfl⟩
    · intro h
      exact absurd h hnot

/-- Witness for C3: after evaluating `wd_temp46` from the empty store, the
persisted alert satisfies the invariant. -/
theorem C3_lifecycle_invariant_witness :
    ({ alert_temp46 with id := some 1 } : Alert).is_active = true ↔
      ({ alert_temp46 with id := some 1 } : Alert).alert_end = none :=
  (C3_lifecycle_invariant [Op.eval 0 wd_temp46] { alert_temp46 with id := some 1 }
    0 wd_temp46 empty_db 1).1 (by decide)

/-- C4 counterexample: starting from a store with one active alert (id 1),
deactivating at time 100 stamps end = 100; deactivating again at time 200
reports success again, changes the store, and re-stamps end = 200 — so the
second call is not a no-op and the first deactivation's timestamp does not
win. -/
theorem C4_counterexample :
    (deactivate_alert 200 (deactivate_alert 100 db_one_active 1).2 1).1 = true ∧
    (deactivate_alert 200 (deactivate_alert 100 db_one_active 1).2 1).2 ≠
      (deactivate_alert 100 db_one_active 1).2 ∧
    ((deactivate_alert 100 db_one_active 1).2.alerts.map Alert.alert_end =
      [some 100]) ∧
    ((deactivate_alert 200 (deactivate_alert 100 db_one_active 1).2 1).2.alerts.map
      Alert.alert_end = [some 200]) := by
  decide

/-- Rows matched by a deactivation update: when a row with the id exists, the
updated list contains an inactive row with that id stamped `end = now`. -/
theorem set_inactive_found (now : Int) (i : Nat) :
    ∀ (l : List Alert), (∃ a ∈ l, a.id = some i) →
      ∃ a ∈ set_inactive now i l,
        a.id = some i ∧ a.is_active = false ∧ a.alert_end = some now := by
  intro l
  induction l with
  | nil =>
      rintro ⟨a, h, _⟩
      cases h
  | cons b l ih =>
      rintro ⟨a, hmem, hid⟩
      unfold set_inactive
      by_cases hb : b.id = some i
      · rw [if_pos hb]
        refine ⟨{ b with is_active := false, alert_end := some now },
          List.mem_cons_self _ _, ?_, rfl, rfl⟩
        simpa using hb
      · rw [if_neg hb]
        rcases List.mem_cons.mp hmem with rfl | hmem'
        · exact absurd hid hb
        · obtain ⟨a', ha', hf⟩ := ih ⟨a, hmem', hid⟩
          exact ⟨a', List.mem_cons_of_mem b ha', hf⟩

/-- C4 (amended). Deactivation is not first-wins: whenever an alert with the
given id exists — active or not — `deactivate_alert` reports success and
unconditionally re-stamps that alert to `is_active = false` and
`alert_end = now`; a second deactivation therefore overwrites the first
call's end timestamp with its own current time. -/
theorem C4_deactivate_restamps (now : Int) (db : DB) (i : Nat)
    (h : ∃ a ∈ db.alerts, a.id = some i) :
    (deactivate_alert now db i).1 = true ∧
    ∃ a ∈ (deactivate_alert now db i).2.alerts,
      a.id = some i ∧ a.is_active = false ∧ a.alert_end = some now := by
  have hfind : (db.alerts.find? fun a => decide (a.id = some i)).isSome := by
    rw [List.find?_isSome]
    obtain ⟨a, ha, hid⟩ := h
    exact ⟨a, ha, by simp [hid]⟩
  obtain ⟨b, hb⟩ := Option.isSome_iff_exists.mp hfind
  unfold deactivate_alert
  rw [hb]
  exact ⟨rfl, set_inactive_found now i db.alerts h⟩

/-- Witness for the amended C4: re-deactivating the already-inactive alert 1
at time 200 succeeds and stamps end = 200. -/
theorem C4_deactivate_restamps_witness :
    (deactivate_alert 200 (deactivate_alert 100 db_one_active 1).2 1).1 = true ∧
    ∃ a ∈ (deactivate_alert 200 (deactivate_alert 100 db_one_active 1).2 1).2.alerts,
      a.id = some 1 ∧ a.is_active = false ∧ a.alert_end = some 200 :=
  C4_deactivate_restamps 200 (deactivate_alert 100 db_one_active 1).2 1 (by decide)

/-- C6. Deactivating a nonexistent alert id makes the endpoint answer
`HTTPException 404 "Alerta no encontrada"` and leaves the store unchanged;
for an existing id the endpoint answers a success `APIResponse`. -/
theorem C6_deactivate_not_found (now : Int) (db : DB) (i : Nat) :
    ((∀ a ∈ db.alerts, a.id ≠ some i) →
      admin_deactivate_alert now db i = (.httpError 404 "Alerta no encontrada", db)) ∧
    ((∃ a ∈ db.alerts, a.id = some i) →
      (admin_deactivate_alert now db i).1 =
        .apiResponse true ("Alerta " ++ toString i ++ " desactivada exitosamente")) := by
  constructor
  · intro h
    have hn : db.alerts.find? (fun a => decide (a.id = some i)) = none :=
      List.find?_eq_none.mpr fun a ha => by simpa using h a ha
    unfold admin_deactivate_alert deactivate_alert
    rw [hn]
    rfl
  · intro h
    have hs : (db.alerts.find? fun a => decide (a.id = some i)).isSome := by
      rw [List.find?_isSome]
      obtain ⟨a, ha, hid⟩ := h
      exact ⟨a, ha, by simp [hid]⟩
    obtain ⟨b, hb⟩ := Option.isSome_iff_exists.mp hs
    unfold admin_deactivate_alert deactivate_alert
    rw [hb]
    rfl

/-- Witness for C6: id 99 is absent from `db_one_active` and yields the 404
error with the store unchanged; id 1 exists and yields the success body. -/
theorem C6_deactivate_not_found_witness :
    admin_deactivate_alert 0 db_one_active 99 =
      (.httpError 404 "Alerta no encontrada", db_one_active) ∧
    (admin_deactivate_alert 0 db_one_active 1).1 =
      .apiResponse true ("Alerta " ++ toString 1 ++ " desactivada exitosamente") :=
  ⟨(C6_deactivate_not_found 0 db_one_active 99).1 (by decide),
   (C6_deactivate_not_found 0 db_one_active 1).2 (by decide)⟩

/-! ### Candidate start timestamps and error swallowing -/

/-- C5 counterexample: the observation `wd_temp46` carries timestamp 500, yet
the candidate emitted by an evaluation at time 777 has start = 777 — the
observation's own timestamp is never used for the candidate's start. -/
theorem C5_counterexample :
    ((candidates 777 wd_temp46).map Alert.alert_start = [777]) ∧
    wd_temp46.time = 500 ∧ (777 : Int) ≠ 500 := by
  refine ⟨by decide, rfl, by decide⟩

/-- C5 (amended). Every candidate's start timestamp equals the evaluation
time (`datetime.now()` at `_check_*` time), regardless of the observation's
timestamp. -/
theorem C5_start_is_evaluation_time (now : Int) (wd : WeatherData) (a : Alert)
    (h : a ∈ candidates now wd) : a.alert_start = now :=
  (candidates_fields now wd a h).2.2.1

/-- Witness for the amended C5 at evaluation time 777. -/
theorem C5_start_is_evaluation_time_witness :
    ({ alert_temp46 with alert_start := 777, created_at := 777 } : Alert).alert_start
      = 777 :=
  C5_start_is_evaluation_time 777 wd_temp46 _ (by decide)

/-- C7 counterexample: with the store failing, evaluating `wd_temp46` from
the empty store returns `.ok` carrying the full (non-empty) candidate list
and the unchanged store: no failure reaches the caller even though a
candidate existed and was not persisted, and the returned list is the same
as a successful run's. -/
theorem C7_counterexample :
    evaluate_weather_data_caught true 0 empty_db wd_temp46 =
      .ok (candidates 0 wd_temp46, empty_db) ∧
    candidates 0 wd_temp46 ≠ [] ∧
    (evaluate_weather_data_caught true 0 empty_db wd_temp46).map Prod.fst =
      (evaluate_weather_data_caught false 0 empty_db wd_temp46).map Prod.fst := by
  refine ⟨rfl, by decide, rfl⟩

/-- C7 (amended). A store failure during the dedup/insert/commit step is
caught inside `evaluate_weather_data`: the transaction is rolled back (store
unchanged, nothing admitted) and the function still returns the full
candidate list as a normal `.ok` result — the failure is not propagated, and
the returned list is indistinguishable from a successful run's. -/
theorem C7_store_failure_swallowed (now : Int) (db : DB) (wd : WeatherData) :
    evaluate_weather_data_caught true now db wd = .ok (candidates now wd, db) ∧
    (evaluate_weather_data_caught true now db wd).map Prod.fst =
      (evaluate_weather_data_caught false now db wd).map Prod.fst :=
  ⟨rfl, rfl⟩

/-- C9. The list returned by `evaluate_weather_data` is exactly the candidate
list — including candidates the dedup gate declined to persist — and does not
depend on the store; in particular, when every candidate is suppressed the
store is left unchanged while the returned list still carries them all, so
the return value does not indicate which candidates were actually created. -/
theorem C9_return_value (now : Int) (db db' : DB) (wd : WeatherData) :
    (evaluate_weather_data now db wd).1 = candidates now wd ∧
    (evaluate_weather_data now db wd).1 = (evaluate_weather_data now db' wd).1 ∧
    ((∀ c ∈ candidates now wd, suppressed now db c.location_id c.alert_type) →
      (evaluate_weather_data now db wd).2 = db) := by
  refine ⟨rfl, rfl, ?_⟩
  intro h
  show persist_candidates now (candidates now wd) db = db
  exact persist_nop now (candidates now wd) db fun c hc =>
    (existing_alert_query_iff now db c).mpr (h c hc)

/-- Witness for C9: against a store already holding a suppressing alert, the
returned list still equals the candidate list while the store is unchanged. -/
theorem C9_return_value_witness :
    (evaluate_weather_data 60 db_one_active wd_temp46).1 = candidates 60 wd_temp46 ∧
    (evaluate_weather_data 60 db_one_active wd_temp46).2 = db_one_active :=
  ⟨(C9_return_value 60 db_one_active db_one_active wd_temp46).1,
   (C9_return_value 60 db_one_active db_one_active wd_temp46).2.2 (by decide)⟩

/-! ### Listing active alerts -/

/-- Membership through the descending insertion. -/
theorem mem_insert_by_start_desc (a x : Alert) :
    ∀ (l : List Alert), x ∈ insert_by_start_desc a l ↔ x = a ∨ x ∈ l := by
  intro l
  induction l with
  | nil => simp [insert_by_start_desc]
  | cons b l ih =>
      unfold insert_by_start_desc
      by_cases hb : b.alert_start < a.alert_start
      · rw [if_pos hb]
        simp [List.mem_cons]
      · rw [if_neg hb]
        simp [List.mem_cons, ih]
        tauto

/-- The descending sort preserves membership. -/
theorem mem_sort_by_start_desc (x : Alert) :
    ∀ (l : List Alert), x ∈ sort_by_start_desc l ↔ x ∈ l := by
  intro l
  induction l with
  | nil => simp [sort_by_start_desc]
  | cons a l ih =>
      unfold sort_by_start_desc
      rw [mem_insert_by_start_desc]
      simp [List.mem_cons, ih]

/-- C10. `get_active_alerts` with `location_id = 0` applies no location
filter (Python truthiness): it returns exactly the active alerts of all
locations, the same as passing no location at all, so filtering to a
location whose id is 0 is impossible; for every positive `location_id`
exactly that location's active alerts are returned. -/
theorem C10_zero_location_id (db : DB) (l : Nat) (x : Alert) :
    (get_active_alerts db (some 0) = get_active_alerts db none) ∧
    (x ∈ get_active_alerts db none ↔ x ∈ db.alerts ∧ x.is_active = true) ∧
    (0 < l →
      (x ∈ get_active_alerts db (some l) ↔
        (x ∈ db.alerts ∧ x.is_active = true ∧ x.location_id = l))) := by
  refine ⟨rfl, ?_, ?_⟩
  · unfold get_active_alerts
    rw [mem_sort_by_start_desc]
    simp [List.mem_filter]
  · intro hl
    unfold get_active_alerts
    dsimp only
    rw [if_pos (Nat.pos_iff_ne_zero.mp hl), mem_sort_by_start_desc]
    simp only [List.mem_filter, decide_eq_true_eq, and_assoc]

/-- Witness for C10 at `location_id = 1` on the one-alert store. -/
theorem C10_zero_location_id_witness :
    ({ alert_temp46 with id := some 1 } : Alert) ∈
        get_active_alerts db_one_active (some 1) ↔
      (({ alert_temp46 with id := some 1 } : Alert) ∈ db_one_active.alerts ∧
       ({ alert_temp46 with id := some 1 } : Alert).is_active = true ∧
       ({ alert_temp46 with id := some 1 } : Alert).location_id = 1) :=
  (C10_zero_location_id db_one_active 1 _).2.2 (by decide)

/-! ### The most-affected-location query -/

/-- A location appears among the grouped rows exactly when it has a positive
window alert count. -/
theorem window_locations_mem (cutoff : Int) (db : DB) (l : Nat) :
    l ∈ window_locations cutoff db ↔ 0 < loc_alert_count cutoff db l := by
  unfold window_locations loc_alert_count
  rw [List.mem_dedup, List.mem_map]
  constructor
  · rintro ⟨a, ha, rfl⟩
    apply List.length_pos.mpr
    apply List.ne_nil_of_mem (a := a)
    exact List.mem_filter.mpr ⟨ha, by simp⟩
  · intro h
    obtain ⟨a, ha⟩ := List.exists_mem_of_length_pos h
    have hm := List.mem_filter.mp ha
    exact ⟨a, hm.1, by simpa using hm.2⟩

/-- Every grouped row pairs a positive-count location with its count. -/
theorem group_rows_mem (cutoff : Int) (db : DB) (p : Nat × Nat)
    (h : p ∈ group_rows cutoff db) :
    p.2 = loc_alert_count cutoff db p.1 ∧ 0 < loc_alert_count cutoff db p.1 := by
  unfold group_rows at h
  obtain ⟨l, hl, rfl⟩ := List.mem_map.mp h
  exact ⟨rfl, (window_locations_mem cutoff db l).mp hl⟩

/-- The grouped rows are empty exactly when the window holds no alerts. -/
theorem group_rows_eq_nil (cutoff : Int) (db : DB) :
    group_rows cutoff db = [] ↔ window_alerts cutoff db = [] := by
  unfold group_rows window_locations
  constructor
  · intro h
    have h2 : ((window_alerts cutoff db).map (·.location_id)).dedup = [] := by
      by_contra hne
      obtain ⟨l, hl⟩ := List.exists_mem_of_ne_nil _ hne
      have : (l, loc_alert_count cutoff db l) ∈
          (((window_alerts cutoff db).map (·.location_id)).dedup.map
            fun l => (l, loc_alert_count cutoff db l)) :=
        List.mem_map.mpr ⟨l, hl, rfl⟩
      rw [h] at this
      cases this
    have h3 : (window_alerts cutoff db).map (·.location_id) = [] := by
      by_contra hne
      obtain ⟨l, hl⟩ := List.exists_mem_of_ne_nil _ hne
      rw [List.eq_nil_iff_forall_not_mem] at h2
      exact h2 l (List.mem_dedup.mpr hl)
    exact List.map_eq_nil_iff.mp h3
  · intro h
    rw [h]
    rfl

/-- C8 (amended). Every possible `mostAffectedLocation` result is a location
attaining the maximal alert count of the window — the SQL guarantees only the
`count DESC` ordering, so which of several tied locations is returned is
database-determined rather than smallest-id — and the result is null exactly
when the window contains no alerts. -/
theorem C8_most_affected (now : Int) (days : Nat) (db : DB) (r : Option Nat)
    (h : MostAffectedOutcome (stats_cutoff now days) db r) :
    (r = none ↔ window_alerts (stats_cutoff now days) db = []) ∧
    (∀ l, r = some l →
      0 < loc_alert_count (stats_cutoff now days) db l ∧
      ∀ l', loc_alert_count (stats_cutoff now days) db l' ≤
        loc_alert_count (stats_cutoff now days) db l) := by
  obtain ⟨gs, hperm, hsort, hr⟩ := h
  constructor
  · rw [hr]
    rw [← group_rows_eq_nil (stats_cutoff now days) db]
    constructor
    · intro hn
      have hgs : gs = [] := by
        cases gs with
        | nil => rfl
        | cons p gs' => cases hn
      rw [hgs] at hperm
      exact (List.Perm.nil_eq hperm).symm
    · intro hn
      rw [hn] at hperm
      have : gs = [] := List.Perm.eq_nil hperm
      rw [this]
      rfl
  · intro l hl
    rw [hr] at hl
    cases gs with
    | nil => cases hl
    | cons p gs' =>
        simp only [List.head?_cons, Option.map_some', Option.some.injEq] at hl
        have hp : p ∈ group_rows (stats_cutoff now days) db :=
          hperm.subset (List.mem_cons_self p gs')
        obtain ⟨hcount, hpos⟩ := group_rows_mem _ db p hp
        subst hl
        refine ⟨hpos, ?_⟩
        intro l'
        by_cases h0 : 0 < loc_alert_count (stats_cutoff now days) db l'
        · have hl' : (l', loc_alert_count (stats_cutoff now days) db l') ∈
              group_rows (stats_cutoff now days) db := by
            unfold group_rows
            exact List.mem_map.mpr
              ⟨l', (window_locations_mem _ db l').mpr h0, rfl⟩
          have hin : (l', loc_alert_count (stats_cutoff now days) db l') ∈
              p :: gs' := hperm.symm.subset hl'
          rcases List.mem_cons.mp hin with heq | hin'
          · cases heq
            simp
          · have hge := (List.pairwise_cons.mp hsort).1 _ hin'
            rw [← hcount]
            exact hge
        · omega

/-- C8 counterexample: with one window alert each at locations 1 and 2 the
per-location counts tie; the query may return location 2, which is not the
smallest tied location id — `ORDER BY count DESC` imposes no tie-break. -/
theorem C8_counterexample :
    MostAffectedOutcome (stats_cutoff 0 30) db_two_locations (some 2) ∧
    loc_alert_count (stats_cutoff 0 30) db_two_locations 1 =
      loc_alert_count (stats_cutoff 0 30) db_two_locations 2 ∧
    (1 : Nat) < 2 ∧ some 2 ≠ (some 1 : Option Nat) := by
  refine ⟨⟨[(2, 1), (1, 1)], ?_, ?_, rfl⟩, by decide, by decide, by decide⟩
  · rw [show group_rows (stats_cutoff 0 30) db_two_locations = [(1, 1), (2, 1)]
      from by decide]
    exact List.Perm.swap (1, 1) (2, 1) []
  · exact List.pairwise_cons.mpr ⟨by decide, List.pairwise_singleton _ _⟩

/-- Witness for the amended C8: location 1 is a possible result on the tied
store, and its count is maximal. -/
theorem C8_most_affected_witness :
    0 < loc_alert_count (stats_cutoff 0 30) db_two_locations 1 ∧
    ∀ l', loc_alert_count (stats_cutoff 0 30) db_two_locations l' ≤
      loc_alert_count (stats_cutoff 0 30) db_two_locations 1 :=
  (C8_most_affected 0 30 db_two_locations (some 1)
    ⟨[(1, 1), (2, 1)],
     by
       rw [show group_rows (stats_cutoff 0 30) db_two_locations = [(1, 1), (2, 1)]
         from by decide],
     List.pairwise_cons.mpr ⟨by decide, List.pairwise_singleton _ _⟩,
     rfl⟩).2 1 rfl

end MeteoAlert
